import Mathlib

/-!
Verification of the Ark podcast-generator timeline and orchestration logic.

Shallow embedding of the timing / rendering / persistence logic of the
`xtang/Ark` repository (Python).  Numeric values that the Python source holds
in `float`s are modelled as rationals (`ℚ`); the algorithms only add,
subtract, divide and compare, and every concrete input considered below is
exactly representable, so the rational model matches the source arithmetic.
Python `int(x)` applied to a non-negative float product `i * (L / N)` is
modelled as natural-number division `i * L / N` (truncation = floor on
non-negative values).
-/

/-- One voice segment as produced by the Audio stage
(`src/generators/audio.py`): a timestamped span of synthesized speech.
The Python source stores these as dicts with keys `start_time_seconds`
and `end_time_seconds`. -/
structure VoiceSeg where
  start_time_seconds : ℚ
  end_time_seconds : ℚ
deriving DecidableEq, Repr

/-- Embeds `voice_segments[i].get("start_time_seconds", 0)` — in the typed model the
key is always present; the default `0` is kept for out-of-range indices
(which the generated indices never are). -/
def seg_start_at (segs : List VoiceSeg) (i : Nat) : ℚ :=
  ((segs[i]?).map (·.start_time_seconds)).getD 0

/-- Embeds `voice_segments[i].get("end_time_seconds", audio_duration)` — same
convention as `seg_start_at`, with the source's default `audio_duration`. -/
def seg_end_at (audio_duration : ℚ) (segs : List VoiceSeg) (i : Nat) : ℚ :=
  ((segs[i]?).map (·.end_time_seconds)).getD audio_duration

/-- Loop body of `VideoGenerator._calculate_image_durations`
(`src/generators/video.py` lines 78–89) for one `i` in `range(num_images)`:
`start_idx = int(i * segments_per_image)`,
`end_idx = int((i+1) * segments_per_image)` clamped to the last valid index,
and `max(0.5, end_time - start_time)`. -/
def group_duration (audio_duration : ℚ) (segs : List VoiceSeg) (N : Nat) (i : Nat) : ℚ :=
  let L := segs.length
  let start_idx := i * L / N
  let end_idx0 := (i + 1) * L / N
  let end_idx := if L ≤ end_idx0 then L - 1 else end_idx0
  max (1/2 : ℚ) (seg_end_at audio_duration segs end_idx - seg_start_at segs start_idx)

/-- Helper embedding Python `durations[-1] += 2.0` guarded by
`if durations:` (`src/generators/video.py` lines 92–93) — add `2` to the
last element of a list, identity on `[]`. -/
def bumpLast : List ℚ → List ℚ
  | [] => []
  | [x] => [x + 2]
  | x :: y :: xs => x :: bumpLast (y :: xs)

/-- The segment-partition branch of `_calculate_image_durations`
(`src/generators/video.py` lines 73–95): one `group_duration` per image,
then `durations[-1] += 2.0`. -/
def partition_durations (audio_duration : ℚ) (segs : List VoiceSeg) (N : Nat) : List ℚ :=
  bumpLast ((List.range N).map (group_duration audio_duration segs N))

/-- Embeds `VideoGenerator._calculate_image_durations`
(`src/generators/video.py` lines 60–99; textually identical logic in
`VideoRenderer.calculate_image_durations`, `src/generators/renderer.py`
lines 125–158).

Python:
* `if num_images <= 0: return []`;
* if `voice_segments` is truthy (non-empty) and
  `len(voice_segments) >= num_images`, return the partition durations;
* else return `[(audio_duration + 2.0) / num_images] * num_images`. -/
def calculate_image_durations (audio_duration : ℚ) (voice_segments : List VoiceSeg)
    (num_images : Int) : List ℚ :=
  if num_images ≤ 0 then []
  else
    let N : Nat := num_images.toNat
    if voice_segments ≠ [] ∧ N ≤ voice_segments.length then
      partition_durations audio_duration voice_segments N
    else
      List.replicate N ((audio_duration + 2) / (N : ℚ))

/-- One dialogue line (`{speaker, text}` dict in the source). -/
structure DialogueLine where
  speaker : String
  text : String
deriving DecidableEq, Repr

/-- The subtitle-creation guard in `VideoGenerator.generate`
(`src/generators/video.py` lines 345–350): a subtitle file is written iff
`dialogue and voice_segments and len(dialogue) == len(voice_segments)`
(`dialogue = None` is modelled as the empty list — both are falsy). -/
def subtitles_enabled (dialogue : List DialogueLine) (voice_segments : List VoiceSeg) : Bool :=
  !dialogue.isEmpty && !voice_segments.isEmpty && dialogue.length == voice_segments.length

/-- The numeric parameters of the voice-track audio chain
`apad=pad_dur=…`, `afade=t=in:st=…:d=…`, `afade=t=out:st=…:d=…` of a built
filter graph.  The source builds the textual filter; this structure models
exactly the numbers interpolated into it. -/
structure VoiceFilterParams where
  pad_dur : ℚ
  fade_in_start : ℚ
  fade_in_dur : ℚ
  fade_out_start : ℚ
  fade_out_dur : ℚ
deriving DecidableEq, Repr

/-- Embeds `self.fade_duration = 0.3` of `VideoGenerator.__init__`
(`src/generators/video.py` line 36). -/
def videoGen_fade_duration : ℚ := 3/10

/-- Embeds `self.fade_duration = 0.3` of `VideoRenderer.__init__`
(`src/generators/renderer.py` line 27). -/
def renderer_fade_duration : ℚ := 3/10

/-- Voice-track filter parameters built by
`VideoGenerator._build_ffmpeg_command` (`src/generators/video.py`
lines 249–253): `apad=pad_dur=2`, `afade=t=in:st=0:d=fade_duration`,
`afade=t=out:st=audio_duration + 2.0 - fade_duration:d=fade_duration`. -/
def videoGen_voice_filter (audio_duration : ℚ) : VoiceFilterParams :=
  { pad_dur := 2
    fade_in_start := 0
    fade_in_dur := videoGen_fade_duration
    fade_out_start := audio_duration + 2 - videoGen_fade_duration
    fade_out_dur := videoGen_fade_duration }

/-- Voice-track filter parameters built by
`VideoRenderer.build_ffmpeg_command` (`src/generators/renderer.py`
lines 359–363): `apad=pad_dur=2`, `afade=t=in:st=0:d=fade_duration`,
`afade=t=out:st=audio_duration + 2.0 - 2.0:d=2.0`. -/
def renderer_voice_filter (audio_duration : ℚ) : VoiceFilterParams :=
  { pad_dur := 2
    fade_in_start := 0
    fade_in_dur := renderer_fade_duration
    fade_out_start := audio_duration + 2 - 2
    fade_out_dur := 2 }

/-! ## Resume state (`resume_cli`, `src/main.py` lines 94–187)

The DB rows consulted by resume carry only the fields the skip decisions
read.  `""` models a NULL / empty (falsy) path column; the filesystem is an
explicit existence predicate `String → Bool`. -/

/-- The generation row fields read by resume. -/
structure GenerationRow where
  dialogue_json_path : String
deriving DecidableEq, Repr

/-- A `dialogue_requests` row as read by resume. -/
structure DialogueRequestRow where
  success : Bool
deriving DecidableEq, Repr

/-- An `audio_requests` row as read by resume. -/
structure AudioRequestRow where
  success : Bool
  audio_path : String
deriving DecidableEq, Repr

/-- An `image_requests` row as read by resume. -/
structure ImageRequestRow where
  success : Bool
  image_path : String
deriving DecidableEq, Repr

/-- A `video_outputs` row as read by resume. -/
structure VideoOutputRow where
  success : Bool
  video_path : String
deriving DecidableEq, Repr

/-- Persisted state plus filesystem as seen by `resume_cli`. -/
structure ResumeState where
  gen : GenerationRow
  dialogue_req : Option DialogueRequestRow
  audio_req : Option AudioRequestRow
  image_reqs : List ImageRequestRow
  video_out : Option VideoOutputRow
  file_exists : String → Bool

/-- Embeds `src/main.py` line 96:
`if dialogue_req and dialogue_req.success and gen.dialogue_json_path:` —
the dialogue stage is skipped on DB success plus a non-empty recorded path;
no filesystem check participates in this decision (the file is only opened
later, guarded separately, to recover the title). -/
def dialogue_skip (st : ResumeState) : Bool :=
  match st.dialogue_req with
  | none => false
  | some r => r.success && st.gen.dialogue_json_path != ""

/-- Embeds `src/main.py` line 118:
`audio_exists = audio_req and audio_req.audio_path and Path(audio_req.audio_path).exists()`. -/
def audio_file_ok (st : ResumeState) : Bool :=
  match st.audio_req with
  | none => false
  | some r => r.audio_path != "" && st.file_exists r.audio_path

/-- Embeds `src/main.py` line 120: `if audio_req and audio_req.success and audio_exists:`. -/
def audio_skip (st : ResumeState) : Bool :=
  match st.audio_req with
  | none => false
  | some r => r.success && audio_file_ok st

/-- Embeds `src/main.py` line 141:
`[img for img in image_reqs if img.success and Path(img.image_path).exists()]`. -/
def successful_images (st : ResumeState) : List ImageRequestRow :=
  st.image_reqs.filter (fun img => img.success && st.file_exists img.image_path)

/-- Embeds `src/main.py` line 145: `if successful_images:` — reuse existing images
iff at least one image request is marked success with its file on disk. -/
def images_skip (st : ResumeState) : Bool :=
  !(successful_images st).isEmpty

/-- Embeds `src/main.py` line 174:
`video_exists = video_out and video_out.video_path and Path(video_out.video_path).exists()`. -/
def video_file_ok (st : ResumeState) : Bool :=
  match st.video_out with
  | none => false
  | some v => v.video_path != "" && st.file_exists v.video_path

/-- Embeds `src/main.py` line 176: `if video_exists and video_out.success:`. -/
def video_skip (st : ResumeState) : Bool :=
  video_file_ok st &&
    (match st.video_out with
     | none => false
     | some v => v.success)

/-! ## Generation status updates (`src/database/db.py` lines 145–176) -/

/-- The generation row fields touched by `update_generation_status`. -/
structure GenerationStatusRow where
  status : String
  error_message : Option String
  completed_at : Option String
deriving DecidableEq, Repr

/-- Python truthiness of an optional string: `None` and `""` are falsy. -/
def pyTruthyOpt : Option String → Bool
  | none => false
  | some s => s != ""

/-- Embeds `Database.update_generation_status` (`src/database/db.py` lines 145–176):
unconditionally `SET status = ?`; `error_message` only when the argument is
truthy; `completed_at = now` exactly when the new status is `"completed"`.
Path-column kwargs do not affect these fields and are omitted. -/
def update_generation_status (g : GenerationStatusRow) (status : String)
    (error_message : Option String) (now : String) : GenerationStatusRow :=
  { status := status
    error_message := if pyTruthyOpt error_message then error_message else g.error_message
    completed_at := if status == "completed" then some now else g.completed_at }

/-! ## Audio stage duration (`src/generators/audio.py` lines 123–155) -/

/-- Timestamp rescale applied after a successful speed effect
(`src/generators/audio.py` lines 135–140): both times are multiplied by
`scale_factor = 1.0 / speed_ratio`. -/
def rescale_segment (scale_factor : ℚ) (s : VoiceSeg) : VoiceSeg :=
  ⟨s.start_time_seconds * scale_factor, s.end_time_seconds * scale_factor⟩

/-- The voice segments as they stand after the speed-adjustment block of
`AudioGenerator.generate` (`src/generators/audio.py` lines 126–148):
rescaled iff `abs(speed_ratio - 1.0) > 0.01` and the FFmpeg speed effect
succeeded (`speed_effect_ok`); on the fallback path the original timestamps
are kept. -/
def audio_stage_segments (speed_ratio : ℚ) (speed_effect_ok : Bool)
    (segs : List VoiceSeg) : List VoiceSeg :=
  if (1/100 : ℚ) < |speed_ratio - 1| ∧ speed_effect_ok then
    segs.map (rescale_segment (1 / speed_ratio))
  else segs

/-- Embeds the `duration_seconds` computed at `src/generators/audio.py` lines 151–155:
`0.0` for an empty list, else
`max(seg.get("end_time_seconds", 0) for seg in voice_segments)`. -/
def max_end_time (segs : List VoiceSeg) : ℚ :=
  match segs with
  | [] => 0
  | s :: rest => rest.foldl (fun acc t => max acc t.end_time_seconds) s.end_time_seconds

/-- The duration the Audio stage returns and persists
(`src/generators/audio.py` lines 151–164), as a function of the incoming
segments and the speed-adjustment outcome. -/
def audio_stage_duration (speed_ratio : ℚ) (speed_effect_ok : Bool)
    (segs : List VoiceSeg) : ℚ :=
  max_end_time (audio_stage_segments speed_ratio speed_effect_ok segs)

/-- Modelled from the spec: the cover-insertion step of the Timeline Planner
(spec §4.2 step 4 and §8 "Cover insertion").  The callers in
`src/workflow.py`, `src/main.py` and `src/tui/app.py` pass a
`cover_image_path` into video generation and
`VideoRenderer.build_ffmpeg_command` consumes an already-computed
`cover_duration`, but the code that adjusts the duration list for the cover
is not under `src/`.  Spec: given computed durations `[d0, d1, ...]` and a
cover requested, the result is `[1.0, max(0.5, d0-1.0), d1, ...]`. -/
def insert_cover : List ℚ → List ℚ
  | [] => [1]
  | d0 :: rest => 1 :: max (1/2 : ℚ) (d0 - 1) :: rest

/-! ## Concrete inputs used in witnesses and counterexamples -/

/-- The spec §8 scenario: 6 voice segments with timestamps
`[0,3],[3,6],[6,10],[10,13],[13,17],[17,20]`. -/
def scenario_segs : List VoiceSeg :=
  [⟨0,3⟩, ⟨3,6⟩, ⟨6,10⟩, ⟨10,13⟩, ⟨13,17⟩, ⟨17,20⟩]

/-- A single well-formed voice segment `[0,1]`, used to refute the claimed
sum bound when `audio_duration` is unrelated to the segment times. -/
def short_segs : List VoiceSeg := [⟨0, 1⟩]

/-- Resume state with the dialogue stage marked successful in the DB, a
recorded dialogue JSON path, and an empty filesystem (every existence check
fails). -/
def resume_state_stale_dialogue : ResumeState :=
  { gen := ⟨"out/gen_1/dialogue_1.json"⟩
    dialogue_req := some ⟨true⟩
    audio_req := none
    image_reqs := []
    video_out := none
    file_exists := fun _ => false }

/-- Resume state exercising the re-run rules: audio and video rows are
marked success but their files are gone; the only image row is marked
failure; the dialogue row is marked failure. -/
def resume_state_rerun : ResumeState :=
  { gen := ⟨""⟩
    dialogue_req := some ⟨false⟩
    audio_req := some ⟨true, "out/gen_1/audio_1.mp3"⟩
    image_reqs := [⟨false, "out/gen_1/image_1_0.png"⟩]
    video_out := some ⟨true, "out/gen_1/podcast_1.mp4"⟩
    file_exists := fun _ => false }

/-- A generation row in the terminal `completed` state. -/
def completed_generation : GenerationStatusRow :=
  ⟨"completed", none, some "2024-01-01T00:00:00"⟩

/-- A generation row in the `pending` state. -/
def pending_generation : GenerationStatusRow := ⟨"pending", none, none⟩

/-- Two voice segments used to evaluate the audio-stage duration. -/
def audio_segs : List VoiceSeg := [⟨0, 3⟩, ⟨3, 7⟩]

/-! ## Helper lemmas -/

theorem bumpLast_length (l : List ℚ) : (bumpLast l).length = l.length := by
  induction l with
  | nil => rfl
  | cons x xs ih =>
    cases xs with
    | nil => rfl
    | cons y ys => simpa [bumpLast] using ih

theorem bumpLast_sum (l : List ℚ) (h : l ≠ []) : (bumpLast l).sum = l.sum + 2 := by
  induction l with
  | nil => exact absurd rfl h
  | cons x xs ih =>
    cases xs with
    | nil => simp [bumpLast]
    | cons y ys =>
      have := ih (by simp)
      simp [bumpLast, this]
      ring

theorem bumpLast_mem (l : List ℚ) : ∀ x ∈ bumpLast l, ∃ y ∈ l, y ≤ x := by
  induction l with
  | nil => simp [bumpLast]
  | cons x xs ih =>
    cases xs with
    | nil =>
      intro z hz
      simp [bumpLast] at hz
      exact ⟨x, by simp, by simp [hz]⟩
    | cons y ys =>
      intro z hz
      simp only [bumpLast, List.mem_cons] at hz
      rcases hz with rfl | hz
      · exact ⟨z, by simp, le_rfl⟩
      · obtain ⟨w, hw, hwz⟩ := ih z hz
        exact ⟨w, List.mem_cons_of_mem _ hw, hwz⟩

theorem list_range_map_sum (f : ℕ → ℚ) (n : ℕ) :
    ((List.range n).map f).sum = ∑ i in Finset.range n, f i := by
  induction n with
  | zero => simp
  | succ n ih =>
    rw [List.range_succ, List.map_append, List.sum_append, Finset.sum_range_succ, ih]
    simp

theorem idx_div_lt {i N L : ℕ} (hN : 0 < N) (hL : 0 < L) (hi : i < N) : i * L / N < L := by
  rw [Nat.div_lt_iff_lt_mul hN, Nat.mul_comm L N]
  exact (Nat.mul_lt_mul_right hL).mpr hi

theorem seg_start_le_end (audio : ℚ) (segs : List VoiceSeg)
    (hseg : ∀ s ∈ segs, s.start_time_seconds ≤ s.end_time_seconds)
    {k : ℕ} (hk : k < segs.length) :
    seg_start_at segs k ≤ seg_end_at audio segs k := by
  have h : segs[k]? = some segs[k] := List.getElem?_eq_getElem hk
  simp only [seg_start_at, seg_end_at, h, Option.map_some, Option.getD_some]
  exact hseg _ (List.getElem_mem hk)

theorem half_le_group_duration (audio : ℚ) (segs : List VoiceSeg) (N i : ℕ) :
    (1 : ℚ)/2 ≤ group_duration audio segs N i := by
  unfold group_duration
  exact le_max_left _ _

theorem group_duration_eq_of_succ_lt (audio : ℚ) (segs : List VoiceSeg) {N i : ℕ}
    (hN : 0 < N) (hNL : N ≤ segs.length) (hi : i + 1 < N) :
    group_duration audio segs N i =
      max ((1 : ℚ)/2)
        (seg_end_at audio segs ((i + 1) * segs.length / N) -
          seg_start_at segs (i * segs.length / N)) := by
  have hL : 0 < segs.length := lt_of_lt_of_le hN hNL
  have hlt : (i + 1) * segs.length / N < segs.length := idx_div_lt hN hL hi
  simp only [group_duration]
  rw [if_neg (not_le.mpr hlt)]

theorem group_duration_ge_step (audio : ℚ) (segs : List VoiceSeg) {N i : ℕ}
    (hN : 0 < N) (hNL : N ≤ segs.length)
    (hseg : ∀ s ∈ segs, s.start_time_seconds ≤ s.end_time_seconds)
    (hi : i + 1 < N) :
    seg_start_at segs ((i + 1) * segs.length / N) - seg_start_at segs (i * segs.length / N) ≤
      group_duration audio segs N i := by
  have hL : 0 < segs.length := lt_of_lt_of_le hN hNL
  have hlt : (i + 1) * segs.length / N < segs.length := idx_div_lt hN hL hi
  have h1 : seg_start_at segs ((i + 1) * segs.length / N) ≤
      seg_end_at audio segs ((i + 1) * segs.length / N) :=
    seg_start_le_end audio segs hseg hlt
  rw [group_duration_eq_of_succ_lt audio segs hN hNL hi]
  calc seg_start_at segs ((i + 1) * segs.length / N) - seg_start_at segs (i * segs.length / N)
      ≤ seg_end_at audio segs ((i + 1) * segs.length / N) -
          seg_start_at segs (i * segs.length / N) := by linarith
    _ ≤ _ := le_max_right _ _

theorem group_duration_ge_last (audio : ℚ) (segs : List VoiceSeg) (M : ℕ) :
    seg_end_at audio segs (segs.length - 1) -
        seg_start_at segs (M * segs.length / (M + 1)) ≤
      group_duration audio segs (M + 1) M := by
  have hdiv : (M + 1) * segs.length / (M + 1) = segs.length :=
    Nat.mul_div_cancel_left _ (Nat.succ_pos M)
  simp only [group_duration, hdiv, if_pos (le_refl segs.length)]
  exact le_max_right _ _

theorem partition_durations_length (audio : ℚ) (segs : List VoiceSeg) (N : ℕ) :
    (partition_durations audio segs N).length = N := by
  simp [partition_durations, bumpLast_length]

theorem partition_durations_half_le (audio : ℚ) (segs : List VoiceSeg) (N : ℕ) :
    ∀ d ∈ partition_durations audio segs N, (1 : ℚ)/2 ≤ d := by
  intro d hd
  obtain ⟨y, hy, hyd⟩ := bumpLast_mem _ d hd
  obtain ⟨i, -, rfl⟩ := List.mem_map.mp hy
  exact le_trans (half_le_group_duration audio segs N i) hyd

theorem partition_durations_sum_ge (audio : ℚ) (segs : List VoiceSeg) {N : ℕ}
    (hN : 0 < N) (hNL : N ≤ segs.length)
    (hseg : ∀ s ∈ segs, s.start_time_seconds ≤ s.end_time_seconds) :
    seg_end_at audio segs (segs.length - 1) - seg_start_at segs 0 + 2 ≤
      (partition_durations audio segs N).sum := by
  obtain ⟨M, rfl⟩ : ∃ M, N = M + 1 := ⟨N - 1, (Nat.succ_pred_eq_of_pos hN).symm⟩
  have hmap_ne : (List.range (M + 1)).map (group_duration audio segs (M + 1)) ≠ [] := by
    simp
  rw [partition_durations, bumpLast_sum _ hmap_ne, list_range_map_sum]
  have key : seg_end_at audio segs (segs.length - 1) - seg_start_at segs 0 ≤
      ∑ i in Finset.range (M + 1), group_duration audio segs (M + 1) i := by
    rw [Finset.sum_range_succ]
    have step : ∀ i ∈ Finset.range M,
        seg_start_at segs ((i + 1) * segs.length / (M + 1)) -
          seg_start_at segs (i * segs.length / (M + 1)) ≤
        group_duration audio segs (M + 1) i := by
      intro i hi
      exact group_duration_ge_step audio segs (Nat.succ_pos M) hNL hseg
        (Nat.succ_lt_succ (Finset.mem_range.mp hi))
    have tele : ∑ i in Finset.range M,
        (seg_start_at segs ((i + 1) * segs.length / (M + 1)) -
          seg_start_at segs (i * segs.length / (M + 1))) =
        seg_start_at segs (M * segs.length / (M + 1)) -
          seg_start_at segs (0 * segs.length / (M + 1)) :=
      Finset.sum_range_sub (fun j => seg_start_at segs (j * segs.length / (M + 1))) M
    have hlast : seg_end_at audio segs (segs.length - 1) -
        seg_start_at segs (M * segs.length / (M + 1)) ≤
        group_duration audio segs (M + 1) M :=
      group_duration_ge_last audio segs M
    have h0 : (0 : ℕ) * segs.length / (M + 1) = 0 := by simp
    have hsum_ge : seg_start_at segs (M * segs.length / (M + 1)) -
        seg_start_at segs 0 ≤
        ∑ i in Finset.range M, group_duration audio segs (M + 1) i := by
      calc seg_start_at segs (M * segs.length / (M + 1)) - seg_start_at segs 0
          = ∑ i in Finset.range M,
              (seg_start_at segs ((i + 1) * segs.length / (M + 1)) -
                seg_start_at segs (i * segs.length / (M + 1))) := by
            rw [tele, h0]
        _ ≤ _ := Finset.sum_le_sum step
    linarith
  linarith

theorem calc_eq_partition (audio : ℚ) (segs : List VoiceSeg) {num : Int}
    (hnum : 0 < num) (hNL : num.toNat ≤ segs.length) :
    calculate_image_durations audio segs num = partition_durations audio segs num.toNat := by
  have h1 : ¬ num ≤ 0 := not_le.mpr hnum
  have hne : segs ≠ [] := by
    have : 0 < segs.length := lt_of_lt_of_le (by omega) hNL
    exact List.ne_nil_of_length_pos this
  simp only [calculate_image_durations, if_neg h1]
  rw [if_pos ⟨hne, hNL⟩]

theorem calc_eq_fallback (audio : ℚ) (segs : List VoiceSeg) {num : Int}
    (hnum : 0 < num) (hlen : segs.length < num.toNat) :
    calculate_image_durations audio segs num =
      List.replicate num.toNat ((audio + 2) / (num.toNat : ℚ)) := by
  have h1 : ¬ num ≤ 0 := not_le.mpr hnum
  have h2 : ¬ (segs ≠ [] ∧ num.toNat ≤ segs.length) := by
    rintro ⟨-, h⟩
    omega
  simp only [calculate_image_durations, if_neg h1]
  rw [if_neg h2]

theorem foldl_max_init_le (l : List VoiceSeg) :
    ∀ init : ℚ, init ≤ l.foldl (fun acc t => max acc t.end_time_seconds) init := by
  induction l with
  | nil => intro init; simp
  | cons s rest ih =>
    intro init
    exact le_trans (le_max_left _ _) (ih (max init s.end_time_seconds))

theorem foldl_max_mem_le (l : List VoiceSeg) :
    ∀ init : ℚ, ∀ s ∈ l,
      s.end_time_seconds ≤ l.foldl (fun acc t => max acc t.end_time_seconds) init := by
  induction l with
  | nil => simp
  | cons s rest ih =>
    intro init t ht
    rcases List.mem_cons.mp ht with rfl | ht
    · exact le_trans (le_max_right _ _) (foldl_max_init_le rest (max init t.end_time_seconds))
    · exact ih _ t ht

theorem foldl_max_eq_init_or_mem (l : List VoiceSeg) :
    ∀ init : ℚ,
      l.foldl (fun acc t => max acc t.end_time_seconds) init = init ∨
      ∃ s ∈ l, l.foldl (fun acc t => max acc t.end_time_seconds) init = s.end_time_seconds := by
  induction l with
  | nil => intro init; left; rfl
  | cons s rest ih =>
    intro init
    rcases ih (max init s.end_time_seconds) with h | ⟨t, ht, h⟩
    · by_cases hc : init ≤ s.end_time_seconds
      · right
        exact ⟨s, by simp, by rw [List.foldl_cons, h, max_eq_right hc]⟩
      · left
        rw [List.foldl_cons, h, max_eq_left (le_of_not_le hc)]
    · right
      exact ⟨t, List.mem_cons_of_mem _ ht, by rw [List.foldl_cons, h]⟩

theorem max_end_time_zero_of_nil : max_end_time [] = 0 := rfl

theorem max_end_time_ge (segs : List VoiceSeg) :
    ∀ s ∈ segs, s.end_time_seconds ≤ max_end_time segs := by
  cases segs with
  | nil => simp
  | cons s rest =>
    intro t ht
    rcases List.mem_cons.mp ht with rfl | ht
    · exact foldl_max_init_le rest t.end_time_seconds
    · exact foldl_max_mem_le rest s.end_time_seconds t ht

theorem max_end_time_attained (segs : List VoiceSeg) (h : segs ≠ []) :
    ∃ s ∈ segs, max_end_time segs = s.end_time_seconds := by
  cases segs with
  | nil => exact absurd rfl h
  | cons s rest =>
    rcases foldl_max_eq_init_or_mem rest s.end_time_seconds with h1 | ⟨t, ht, h1⟩
    · exact ⟨s, by simp, h1⟩
    · exact ⟨t, List.mem_cons_of_mem _ ht, h1⟩

theorem audio_stage_segments_nil_iff (r : ℚ) (ok : Bool) (segs : List VoiceSeg) :
    audio_stage_segments r ok segs = [] ↔ segs = [] := by
  unfold audio_stage_segments
  split <;> simp

/-! ## Claim theorems -/

/-- C1 (counterexample): on the spec §8 scenario — segments
`[0,3],[3,6],[6,10],[10,13],[13,17],[17,20]`, N = 3 — the code does NOT
return the claimed `[6.0, 7.0, 5.0]`. -/
theorem c1_scenario_counterexample :
    calculate_image_durations 20 scenario_segs 3 ≠ [6, 7, 5] := by
  rw [calc_eq_partition 20 scenario_segs (by norm_num)
    (by norm_num [scenario_segs, Int.toNat])]
  norm_num [partition_durations, group_duration,
    seg_start_at, seg_end_at, bumpLast, List.range_succ, Int.toNat, max_def,
    scenario_segs]

/-- C1 (amended): on the spec §8 scenario the code pairs group `i` with the
start index `⌊i·6/3⌋` and the clamped end index `min(⌊(i+1)·6/3⌋, 5)` —
index spans `(0,2), (2,4), (4,5)`, adjacent groups sharing their boundary
segment — and returns `[10.0, 11.0, 9.0]` (the last group's `7.0` plus the
2.0 s tail pad). -/
theorem c1_scenario_durations :
    calculate_image_durations 20 scenario_segs 3 = [10, 11, 9] := by
  rw [calc_eq_partition 20 scenario_segs (by norm_num)
    (by norm_num [scenario_segs, Int.toNat])]
  norm_num [partition_durations, group_duration,
    seg_start_at, seg_end_at, bumpLast, List.range_succ, Int.toNat, max_def,
    scenario_segs]

/-- C2 (counterexample): with N = 1 image, audio_duration = 100 and the
single well-formed segment `[0,1]`, the durations sum to `3`, far below
`audio_duration + 2.0 = 102` — the claimed invariant relates the sum to a
parameter the partition branch never consults. -/
theorem c2_sum_counterexample :
    (0 : Int) < 1 ∧ (0 : ℚ) ≤ 100 ∧
    (∀ s ∈ short_segs, s.start_time_seconds ≤ s.end_time_seconds) ∧
    ¬ ((100 : ℚ) + 2 ≤ (calculate_image_durations 100 short_segs 1).sum) := by
  refine ⟨by norm_num, by norm_num, by decide, ?_⟩
  norm_num [calculate_image_durations, partition_durations, group_duration,
    seg_start_at, seg_end_at, bumpLast, List.range_succ, Int.toNat, max_def,
    short_segs]

/-- C2 (amended): for every N > 0 and segment list with
`start_time_seconds ≤ end_time_seconds` per segment: when the list has at
least N segments, every returned duration is ≥ 0.5 and the sum is at least
(last segment's end − first segment's start) + 2.0; when it has fewer than
N segments the durations sum to exactly `audio_duration + 2.0`. -/
theorem c2_duration_invariant (num : Int) (audio : ℚ) (segs : List VoiceSeg)
    (hnum : 0 < num)
    (hseg : ∀ s ∈ segs, s.start_time_seconds ≤ s.end_time_seconds) :
    (num.toNat ≤ segs.length →
      (∀ d ∈ calculate_image_durations audio segs num, (1 : ℚ)/2 ≤ d) ∧
      seg_end_at audio segs (segs.length - 1) - seg_start_at segs 0 + 2 ≤
        (calculate_image_durations audio segs num).sum) ∧
    (segs.length < num.toNat →
      (calculate_image_durations audio segs num).sum = audio + 2) := by
  constructor
  · intro hNL
    rw [calc_eq_partition audio segs hnum hNL]
    refine ⟨partition_durations_half_le audio segs _, ?_⟩
    exact partition_durations_sum_ge audio segs (by omega) hNL hseg
  · intro hlen
    rw [calc_eq_fallback audio segs hnum hlen]
    rw [List.sum_replicate, nsmul_eq_mul]
    have hn : ((num.toNat : ℚ)) ≠ 0 := by
      have h : 0 < num.toNat := by omega
      exact_mod_cast h.ne'
    rw [mul_comm, div_mul_cancel₀ _ hn]

/-- C2 (witness): the amended invariant evaluated on the §8 scenario. -/
theorem c2_duration_invariant_witness :
    (∀ d ∈ calculate_image_durations 20 scenario_segs 3, (1 : ℚ)/2 ≤ d) ∧
    seg_end_at 20 scenario_segs (scenario_segs.length - 1) -
        seg_start_at scenario_segs 0 + 2 ≤
      (calculate_image_durations 20 scenario_segs 3).sum :=
  (c2_duration_invariant 3 20 scenario_segs (by norm_num) (by decide)).1
    (by norm_num [scenario_segs, Int.toNat])

/-- C8 (confirmed): whenever the segment list has fewer entries than the
(positive) number of images — including the empty list — every image gets
the uniform duration `(audio_duration + 2.0) / num_images`. -/
theorem c8_fallback_uniform (num : Int) (audio : ℚ) (segs : List VoiceSeg)
    (hnum : 0 < num) (hlen : segs.length < num.toNat) :
    calculate_image_durations audio segs num =
      List.replicate num.toNat ((audio + 2) / (num.toNat : ℚ)) :=
  calc_eq_fallback audio segs hnum hlen

/-- C8 (witness): zero segments, N = 4, audio_duration = 18.0 gives four
durations of `(18+2)/4 = 5.0` each. -/
theorem c8_fallback_uniform_witness :
    calculate_image_durations 18 [] 4 =
      List.replicate (4 : Int).toNat ((18 + 2) / (((4 : Int).toNat : ℚ))) ∧
    calculate_image_durations 18 [] 4 = [5, 5, 5, 5] :=
  ⟨c8_fallback_uniform 4 18 [] (by norm_num) (by norm_num [Int.toNat]),
   by norm_num [calculate_image_durations, List.replicate, Int.toNat]⟩

/-- C10 (confirmed): `_calculate_image_durations` returns the empty list for
`num_images ≤ 0`, and for `num_images > 0` (with `audio_duration ≥ 0`) a
list of length exactly `num_images` whose entries are all strictly
positive. -/
theorem c10_length_and_positivity (num : Int) (audio : ℚ) (segs : List VoiceSeg) :
    (num ≤ 0 → calculate_image_durations audio segs num = []) ∧
    (0 < num → 0 ≤ audio →
      (calculate_image_durations audio segs num).length = num.toNat ∧
      ∀ d ∈ calculate_image_durations audio segs num, 0 < d) := by
  constructor
  · intro h
    simp [calculate_image_durations, h]
  · intro hnum haudio
    by_cases hNL : num.toNat ≤ segs.length
    · rw [calc_eq_partition audio segs hnum hNL]
      refine ⟨partition_durations_length audio segs _, ?_⟩
      intro d hd
      have := partition_durations_half_le audio segs _ d hd
      linarith
    · push_neg at hNL
      rw [calc_eq_fallback audio segs hnum hNL]
      refine ⟨by simp, ?_⟩
      intro d hd
      rw [List.eq_of_mem_replicate hd]
      apply div_pos (by linarith)
      have h : 0 < num.toNat := by omega
      exact_mod_cast h

/-- C10 (witness): two images, no applicable segments, zero audio. -/
theorem c10_length_and_positivity_witness :
    (calculate_image_durations 0 short_segs 2).length = (2 : Int).toNat ∧
    ∀ d ∈ calculate_image_durations 0 short_segs 2, 0 < d :=
  (c10_length_and_positivity 2 0 short_segs).2 (by norm_num) le_rfl

/-- C3 (counterexample): the resume dialogue-stage skip decision ignores the
filesystem — a DB row marked success with a recorded path is skipped even
when every file-existence check fails, refuting "if the stage's DB record
is marked success but the stage's artifact file does not exist on disk,
resume re-runs that stage" for the dialogue stage. -/
theorem c3_dialogue_counterexample :
    ¬ (∀ st : ResumeState, ∀ r, st.dialogue_req = some r → r.success = true →
        st.file_exists st.gen.dialogue_json_path = false → dialogue_skip st = false) := by
  intro h
  have hskip := h resume_state_stale_dialogue ⟨true⟩ rfl rfl rfl
  simp [dialogue_skip, resume_state_stale_dialogue] at hskip

/-- C3 (amended): for the audio, image and video stages a DB record marked
failure, or a missing artifact file, forces a re-run; for the dialogue
stage a DB failure forces a re-run, but the skip decision is exactly
`success AND non-empty recorded path` — no file-existence check. -/
theorem c3_resume_skip_rules (st : ResumeState) :
    (∀ r, st.dialogue_req = some r → r.success = false → dialogue_skip st = false) ∧
    (∀ r, st.dialogue_req = some r →
      dialogue_skip st = (r.success && (st.gen.dialogue_json_path != ""))) ∧
    (∀ r, st.audio_req = some r → r.success = false → audio_skip st = false) ∧
    (∀ r, st.audio_req = some r → st.file_exists r.audio_path = false →
      audio_skip st = false) ∧
    ((∀ img ∈ st.image_reqs, img.success = false ∨ st.file_exists img.image_path = false) →
      images_skip st = false) ∧
    (∀ v, st.video_out = some v → v.success = false → video_skip st = false) ∧
    (∀ v, st.video_out = some v → st.file_exists v.video_path = false →
      video_skip st = false) := by
  refine ⟨?_, ?_, ?_, ?_, ?_, ?_, ?_⟩
  · intro r hr hs
    simp [dialogue_skip, hr, hs]
  · intro r hr
    simp [dialogue_skip, hr]
  · intro r hr hs
    simp [audio_skip, hr, hs]
  · intro r hr hf
    simp [audio_skip, audio_file_ok, hr, hf]
  · intro h
    have hempty : successful_images st = [] := by
      rw [successful_images, List.filter_eq_nil_iff]
      intro img himg
      rcases h img himg with h1 | h1 <;> simp [h1]
    simp [images_skip, hempty]
  · intro v hv hs
    simp [video_skip, hv, hs]
  · intro v hv hf
    simp [video_skip, video_file_ok, hv, hf]

/-- C3 (witness): on a state whose audio and video rows are successful but
whose files are gone, whose single image row failed, and whose dialogue row
failed, all four stages re-run. -/
theorem c3_resume_skip_rules_witness :
    dialogue_skip resume_state_rerun = false ∧
    audio_skip resume_state_rerun = false ∧
    images_skip resume_state_rerun = false ∧
    video_skip resume_state_rerun = false :=
  ⟨(c3_resume_skip_rules resume_state_rerun).1 ⟨false⟩ rfl rfl,
   (c3_resume_skip_rules resume_state_rerun).2.2.2.1
     ⟨true, "out/gen_1/audio_1.mp3"⟩ rfl rfl,
   (c3_resume_skip_rules resume_state_rerun).2.2.2.2.1
     (by intro img h; simp [resume_state_rerun] at h; subst h; left; rfl),
   (c3_resume_skip_rules resume_state_rerun).2.2.2.2.2.2
     ⟨true, "out/gen_1/podcast_1.mp4"⟩ rfl rfl⟩

/-- C6 (counterexample): `update_generation_status` does not treat
`completed` as terminal — updating a completed generation to `pending`
changes its status. -/
theorem c6_terminal_counterexample :
    completed_generation.status = "completed" ∧
    (update_generation_status completed_generation "pending" none
      "2024-01-02T00:00:00").status = "pending" ∧
    ("pending" : String) ≠ "completed" := by
  refine ⟨rfl, rfl, ?_⟩
  decide

/-- C6 (amended): `update_generation_status` writes the requested status
unconditionally: the resulting status always equals the argument, so the
operation is idempotent when called with the current status, but no
monotonicity is enforced and `completed`/`failed` are not terminal. -/
theorem c6_update_status_behavior (g : GenerationStatusRow) (status : String)
    (e : Option String) (now : String) :
    (update_generation_status g status e now).status = status ∧
    (g.status = status → (update_generation_status g status e now).status = g.status) := by
  refine ⟨rfl, ?_⟩
  intro h
  simp [update_generation_status, h]

/-- C6 (witness): updating a pending generation with its current status
leaves the status unchanged. -/
theorem c6_update_status_behavior_witness :
    (update_generation_status pending_generation "pending" none "t").status =
      pending_generation.status :=
  (c6_update_status_behavior pending_generation "pending" none "t").2 rfl

/-- C4 (counterexample): in `VideoGenerator._build_ffmpeg_command` the voice
fade-out lasts `fade_duration = 0.3` seconds, not 2.0, and does not start at
`audio_duration` (at `audio_duration = 10` it starts at `11.7`). -/
theorem c4_fadeout_counterexample :
    (videoGen_voice_filter 10).fade_out_dur ≠ 2 ∧
    (videoGen_voice_filter 10).fade_out_start ≠ 10 := by
  constructor <;> norm_num [videoGen_voice_filter, videoGen_fade_duration]

/-- C4 (amended): both builders pad the voice tail by 2.0 s and fade in over
`fade_duration` from t = 0; `VideoRenderer.build_ffmpeg_command` fades out
over 2.0 s starting at `audio_duration` (ending at the padded tail), while
`VideoGenerator._build_ffmpeg_command` instead fades out over
`fade_duration = 0.3` s starting at `audio_duration + 1.7` — also ending at
the padded tail, but over a 0.3 s window. -/
theorem c4_voice_filter_params (a : ℚ) :
    renderer_voice_filter a =
      { pad_dur := 2, fade_in_start := 0, fade_in_dur := renderer_fade_duration,
        fade_out_start := a, fade_out_dur := 2 } ∧
    (videoGen_voice_filter a).pad_dur = 2 ∧
    (videoGen_voice_filter a).fade_in_start = 0 ∧
    (videoGen_voice_filter a).fade_in_dur = videoGen_fade_duration ∧
    (videoGen_voice_filter a).fade_out_dur = videoGen_fade_duration ∧
    (videoGen_voice_filter a).fade_out_start + (videoGen_voice_filter a).fade_out_dur =
      a + 2 := by
  refine ⟨?_, rfl, rfl, rfl, rfl, ?_⟩
  · simp only [renderer_voice_filter, VoiceFilterParams.mk.injEq]
    norm_num
  · simp only [videoGen_voice_filter]
    ring

/-- C5 (confirmed, modelled from the spec): inserting the requested cover
into computed durations `[d0, d1, ...]` yields exactly
`[1.0, max(0.5, d0 - 1.0), d1, ...]`: the length grows by one, the cover is
the new first entry with duration 1.0, and only the first original duration
changes. -/
theorem c5_insert_cover_spec (d0 : ℚ) (rest : List ℚ) :
    insert_cover (d0 :: rest) = 1 :: max ((1:ℚ)/2) (d0 - 1) :: rest ∧
    (insert_cover (d0 :: rest)).length = (d0 :: rest).length + 1 ∧
    (insert_cover (d0 :: rest)).head? = some 1 ∧
    List.drop 2 (insert_cover (d0 :: rest)) = List.drop 1 (d0 :: rest) := by
  refine ⟨rfl, by simp [insert_cover], rfl, by simp [insert_cover]⟩

/-- C7 (confirmed): the subtitle file is produced exactly when the dialogue
and voice-segment lists are both non-empty and of equal length; a length
mismatch or an empty list skips subtitles. -/
theorem c7_subtitles_iff (dialogue : List DialogueLine) (segs : List VoiceSeg) :
    subtitles_enabled dialogue segs = true ↔
      dialogue ≠ [] ∧ segs ≠ [] ∧ dialogue.length = segs.length := by
  simp [subtitles_enabled, and_assoc]

/-- C9 (confirmed): the duration the Audio stage reports and persists is `0`
for an empty segment list, and otherwise is the maximum `end_time_seconds`
over the (possibly speed-rescaled) voice segments: it bounds every
segment's end time and is attained by one of them. -/
theorem c9_audio_duration_max (r : ℚ) (ok : Bool) (segs : List VoiceSeg) :
    (segs = [] → audio_stage_duration r ok segs = 0) ∧
    (∀ s ∈ audio_stage_segments r ok segs,
      s.end_time_seconds ≤ audio_stage_duration r ok segs) ∧
    (segs ≠ [] → ∃ s ∈ audio_stage_segments r ok segs,
      audio_stage_duration r ok segs = s.end_time_seconds) := by
  refine ⟨?_, ?_, ?_⟩
  · intro h
    rw [audio_stage_duration, (audio_stage_segments_nil_iff r ok segs).mpr h]
    rfl
  · exact max_end_time_ge _
  · intro h
    exact max_end_time_attained _
      (fun hc => h ((audio_stage_segments_nil_iff r ok segs).mp hc))

/-- C9 (witness): on the speed-rescale path (ratio 1.5) with two segments,
the reported duration is attained by a rescaled segment end time. -/
theorem c9_audio_duration_max_witness :
    ∃ s ∈ audio_stage_segments (3/2) true audio_segs,
      audio_stage_duration (3/2) true audio_segs = s.end_time_seconds :=
  (c9_audio_duration_max (3/2) true audio_segs).2.2 (by simp [audio_segs])
